import Mathlib

/-!
# WiFi request/reply sample (`main.cpp`): shallow embedding

The two event-queue callbacks of `main.cpp`,
`event_proc_manage_network_connection` and `event_proc_send_and_receive_data`,
are embedded as functions on an explicit `World` (the globals of the program
plus the chronological list of calls made on the drivers).  The drivers
themselves (WiFi interface, TCP socket) are outside the program; their results
are supplied by a `Driver` record.

Conventions
* bytes are `Nat` values (`'\0'` is `0`, `'\n'` is `10`, `'\r'` is `13`);
* `uint32_t` / `nsapi_size_t` arithmetic is `Nat` arithmetic modulo `2 ^ 32`;
* `char[32]` buffers are lists; an access outside the list, like a
  dereference of a null `wifi`, stops the run with `Status.fault`;
* the `while (size)` loop runs on fuel; running out of it is
  `Status.outOfFuel`.
-/

namespace WifiSample

/-! ## Data model -/

/-- Text of `#define SOCKET_SEND_BUFFER_SIZE 32`. -/
def SOCKET_SEND_BUFFER_SIZE : Nat := 32

/-- Text of `#define SOCKET_RECEIVE_BUFFER_SIZE 32`. -/
def SOCKET_RECEIVE_BUFFER_SIZE : Nat := 32

/-- The enum `ConnectionState` of the source. -/
inductive ConnectionState
  | NETWORK_STATE_DISCONNECTED
  | NETWORK_STATE_CONNECTED
  deriving DecidableEq, Repr

/-- An argument of a `swo.printf` call: a `%s` string or a `%d` / `%lu` number. -/
inductive PArg
  | str (bytes : List Nat)
  | num (v : Int)
  deriving DecidableEq, Repr

/-- Calls the program makes on its collaborators, with the values exchanged.
`swoPrintf` is tagged with the source line of the call. -/
inductive Call
  | swoPrintf (line : Nat) (args : List PArg)
  | wifiGetDefaultInstance
  | wifiConnect (ret : Int)
  | wifiGetMacAddress
  | wifiGetIpAddress
  | wifiGetNetmask
  | wifiGetGateway
  | wifiGetRssi
  | wifiDisconnect
  | socketSetTimeout (ms : Nat)
  | socketOpen
  | socketConnect (ret : Int)
  | socketSend (offset : Int) (size : Nat) (ret : Int)
  | socketRecv (cap : Nat) (ret : Int)
  | socketClose
  | ledRead
  | ledWrite (v : Bool)
  deriving DecidableEq, Repr

/-- How a run of a callback ended. -/
inductive Status
  | returned
  | fault
  | outOfFuel
  deriving DecidableEq, Repr

/-- The globals of `main.cpp` and the calls made so far (oldest first). -/
structure World where
  wifi : Option Nat
  counter : Nat
  sbuffer : List Nat
  rbuffer : List Nat
  s_connectionState : ConnectionState
  led1 : Bool
  calls : List Call
  deriving DecidableEq, Repr

/-- Result of running a callback. -/
structure Outcome where
  status : Status
  world : World
  deriving DecidableEq, Repr

/-- What `socket.recv` delivers: a (negative) error code, or the bytes it
stored from `rbuffer[0]` on, whose number is its return value. -/
inductive RecvResult
  | error (code : Int)
  | data (bytes : List Nat)
  deriving DecidableEq, Repr

/-- Return value of `socket.recv(buf, cap)`. -/
def RecvResult.ret (cap : Nat) : RecvResult → Int
  | .error code => code
  | .data bytes => ((bytes.take cap).length : Int)

/-- Effect of `socket.recv(buf, cap)` on the buffer. -/
def RecvResult.store (cap : Nat) (buf : List Nat) : RecvResult → List Nat
  | .error _ => buf
  | .data bytes => bytes.take cap ++ buf.drop (bytes.take cap).length

/-- Results of the driver calls of one callback invocation.  `socket_send k n`
is the result of the `k`-th `socket.send` call (counted from 0) of the
invocation when it is asked for `n` bytes. -/
structure Driver where
  get_default_instance : Option Nat
  wifi_connect : Int
  socket_connect : Int
  socket_send : Nat → Nat → Int
  socket_recv : RecvResult

/-! ## C strings and checked buffer accesses -/

/-- The bytes of a C string: everything before the first NUL. -/
def cstr (bytes : List Nat) : List Nat := bytes.takeWhile (fun b => b ≠ 0)

/-- The C function `strlen` on a buffer; `none` when no NUL lies inside it. -/
def strlen : List Nat → Option Nat
  | [] => none
  | b :: rest => if b = 0 then some 0 else (strlen rest).map (fun n => n + 1)

/-- Read `buf[i]`. -/
def readAt (buf : List Nat) (i : Int) : Option Nat :=
  if 0 ≤ i then buf[i.toNat]? else none

/-- Write `buf[i] = v`. -/
def writeAt (buf : List Nat) (i : Int) (v : Nat) : Option (List Nat) :=
  if 0 ≤ i ∧ i.toNat < buf.length then some (buf.set i.toNat v) else none

/-- Digit loop of the `%lu` conversion: least significant digit first, pushed
in front of what was produced already. -/
def printf_luAux : Nat → Nat → List Nat → List Nat
  | 0, _, acc => acc
  | fuel + 1, n, acc =>
    if n < 10 then (n + 48) :: acc
    else printf_luAux fuel (n / 10) ((n % 10 + 48) :: acc)

/-- The `%lu` conversion of a 32-bit `unsigned long` (at most ten digits). -/
def printf_lu (n : Nat) : List Nat := printf_luAux 10 n []

/-- The call `sprintf(sbuffer, "%s %lu\r", message_type, n)`: the formatted
bytes and the terminating NUL overwrite the start of the buffer. -/
def sprintf_request (buf : List Nat) (message_type : List Nat) (n : Nat) :
    Option (List Nat) :=
  let out := cstr message_type ++ [32] ++ printf_lu n ++ [13, 0]
  if out.length ≤ buf.length then some (out ++ buf.drop out.length) else none

/-- Append one call to the record. -/
def emit (w : World) (c : Call) : World := { w with calls := w.calls ++ [c] }

/-- Append several calls to the record. -/
def emits (w : World) (cs : List Call) : World := { w with calls := w.calls ++ cs }

/-! ## `event_proc_manage_network_connection` (lines 41-69) -/

/-- The callback `event_proc_manage_network_connection`. -/
def event_proc_manage_network_connection (d : Driver) (w : World) : Outcome :=
  if w.s_connectionState = .NETWORK_STATE_CONNECTED then ⟨.returned, w⟩
  else
    let w1 := emits w [.swoPrintf 45 [], .wifiGetDefaultInstance]
    let w2 := { w1 with wifi := d.get_default_instance }
    match w2.wifi with
    | none => ⟨.returned, emit w2 (.swoPrintf 50 [])⟩
    | some _ =>
      let w3 := emits w2 [.swoPrintf 54 [], .wifiConnect d.wifi_connect]
      if d.wifi_connect ≠ 0 then
        ⟨.returned, emit w3 (.swoPrintf 57 [.num d.wifi_connect])⟩
      else
        let w4 := emits w3
          [.swoPrintf 61 [], .wifiGetMacAddress, .swoPrintf 62 [],
           .wifiGetIpAddress, .swoPrintf 63 [], .wifiGetNetmask, .swoPrintf 64 [],
           .wifiGetGateway, .swoPrintf 65 [], .wifiGetRssi, .swoPrintf 66 []]
        ⟨.returned, { w4 with s_connectionState := .NETWORK_STATE_CONNECTED }⟩

/-! ## `event_proc_send_and_receive_data` (lines 72-142) -/

/-- Step 1 (lines 80-81): `++counter`, `sprintf` into `sbuffer`, `strlen`.
The result is the world after the step and `size`; `size` is `none` when
`sprintf` or `strlen` leaves the buffer. -/
def step1 (message_type : List Nat) (w : World) : World × Option Nat :=
  let w1 := { w with counter := (w.counter + 1) % 2 ^ 32 }
  match sprintf_request w1.sbuffer message_type w1.counter with
  | none => (w1, none)
  | some sb =>
    let w2 := { w1 with sbuffer := sb }
    (w2, strlen w2.sbuffer)

/-- How the `while (size)` loop was left. -/
inductive LoopExit
  | completed
  | sendError
  | outOfFuel
  deriving DecidableEq, Repr

/-- The loop of lines 101-115.  Arguments: the driver's `send`, fuel, the
number of `send` calls made so far, `socket_operation_return_value`, `size`,
and the call record.  Every `send` is recorded with the offset added to
`sbuffer`, the size asked for and the result. -/
def sendLoop (send : Nat → Nat → Int) :
    Nat → Nat → Int → Nat → List Call → LoopExit × Int × List Call
  | 0, _, ret, size, calls =>
    if size = 0 then (.completed, ret, calls) else (.outOfFuel, ret, calls)
  | fuel + 1, k, ret, size, calls =>
    if size = 0 then (.completed, ret, calls)
    else
      let r := send k size
      let calls1 := calls ++ [Call.socketSend ret size r]
      if r < 0 then
        (.sendError, r, calls1 ++ [Call.swoPrintf 107 [.num r], Call.socketClose])
      else
        sendLoop send fuel (k + 1) r (((size : Int) - r) % 2 ^ 32).toNat calls1

/-- Lines 131-133: terminate the reply and clear CR/LF bytes. -/
def clearCrLf (rbuffer : List Nat) (n : Int) : Option (List Nat) :=
  (writeAt rbuffer n 0).bind fun b1 =>
  (readAt b1 (n - 1)).bind fun c1 =>
  (if c1 = 10 ∨ c1 = 13 then writeAt b1 (n - 1) 0 else some b1).bind fun b2 =>
  (readAt b2 (n - 2)).bind fun c2 =>
  if c2 = 10 ∨ c2 = 13 then writeAt b2 (n - 2) 0 else some b2

/-- Lines 138-141: close the socket and toggle `led1`. -/
def closeAndToggle (w : World) : Outcome :=
  ⟨.returned,
    { emits w [.socketClose, .ledRead, .ledWrite (!w.led1)] with led1 := !w.led1 }⟩

/-- Step 2 (lines 117-141): what follows a completed send loop. -/
def step2 (d : Driver) (w : World) : Outcome :=
  match strlen w.sbuffer with
  | none => ⟨.fault, w⟩
  | some len =>
    match writeAt w.sbuffer ((len : Int) - 1) 0 with
    | none => ⟨.fault, w⟩
    | some sb =>
      let w1 := emit { w with sbuffer := sb } (.swoPrintf 119 [.str (cstr sb)])
      let ret := d.socket_recv.ret SOCKET_RECEIVE_BUFFER_SIZE
      let w2 := emit
        { w1 with rbuffer := d.socket_recv.store SOCKET_RECEIVE_BUFFER_SIZE w1.rbuffer }
        (.socketRecv SOCKET_RECEIVE_BUFFER_SIZE ret)
      if ret < 0 then
        closeAndToggle (emit w2 (.swoPrintf 126 [.num ret]))
      else
        match clearCrLf w2.rbuffer ret with
        | none => ⟨.fault, w2⟩
        | some rb =>
          closeAndToggle (emit { w2 with rbuffer := rb } (.swoPrintf 135 [.str (cstr rb)]))

/-- Lines 90-97: `socket.connect` returned a nonzero value. -/
def connectFailure (d : Driver) (w : World) : Outcome :=
  let w1 := emits w [.swoPrintf 92 [.num d.socket_connect], .socketClose]
  match w1.wifi with
  | none => ⟨.fault, w1⟩
  | some _ =>
    ⟨.returned,
      { emit w1 .wifiDisconnect with s_connectionState := .NETWORK_STATE_DISCONNECTED }⟩

/-- Lines 99-141: the send loop and, when it completes, step 2. -/
def sendAndReceive (d : Driver) (fuel size : Nat) (w : World) : Outcome :=
  match sendLoop d.socket_send fuel 0 0 size w.calls with
  | (.outOfFuel, _, calls) => ⟨.outOfFuel, { w with calls := calls }⟩
  | (.sendError, _, calls) => ⟨.returned, { w with calls := calls }⟩
  | (.completed, _, calls) => step2 d { w with calls := calls }

/-- The callback `event_proc_send_and_receive_data`. -/
def event_proc_send_and_receive_data (d : Driver) (fuel : Nat)
    (message_type : List Nat) (w : World) : Outcome :=
  if w.s_connectionState ≠ .NETWORK_STATE_CONNECTED then ⟨.returned, w⟩
  else
    match step1 message_type w with
    | (w2, none) => ⟨.fault, w2⟩
    | (w2, some size) =>
      let w3 := emits w2
        [.swoPrintf 83 [.num size], .socketSetTimeout 3000, .socketOpen,
         .socketConnect d.socket_connect]
      if d.socket_connect ≠ 0 then connectFailure d w3
      else sendAndReceive d fuel size w3

/-! ## Observations used by the statements -/

/-- Bytes the transport accepted: for each recorded `socket.send` with a
positive result `r`, the first `r` bytes from the pointer it was given, in call
order. -/
def accepted (sbuffer : List Nat) : List Call → List Nat
  | [] => []
  | .socketSend offset _ r :: rest =>
    (if 0 < r ∧ 0 ≤ offset then (sbuffer.drop offset.toNat).take r.toNat else [])
      ++ accepted sbuffer rest
  | _ :: rest => accepted sbuffer rest

/-- Number of `socket.send` calls in a call record. -/
def sendCalls : List Call → Nat
  | [] => 0
  | .socketSend _ _ _ :: rest => sendCalls rest + 1
  | _ :: rest => sendCalls rest

/-- The two tags the program passes: `"test"` (line 156) and `"btn"` (line 148). -/
def tagTest : List Nat := [116, 101, 115, 116]

/-- The tag `"btn"`. -/
def tagBtn : List Nat := [98, 116, 110]

/-- A 32-byte buffer of NULs, as the zero-initialised globals are at start. -/
def zeroBuffer : List Nat := List.replicate 32 0

/-- A sample world: link up, counter at `c`. -/
def connectedWorld (c : Nat) : World :=
  { wifi := some 1, counter := c, sbuffer := zeroBuffer, rbuffer := zeroBuffer,
    s_connectionState := .NETWORK_STATE_CONNECTED, led1 := false, calls := [] }

/-- A driver whose every call succeeds at once and whose reply is `reply`. -/
def okDriver (reply : List Nat) : Driver :=
  { get_default_instance := some 1, wifi_connect := 0, socket_connect := 0,
    socket_send := fun _ n => (n : Int), socket_recv := .data reply }

/-- A driver that accepts two bytes on each of the first two `send` calls
(when at least two are asked for) and everything asked for otherwise; the
reply is `"ack\r\n"`. -/
def chunkDriver : Driver :=
  { okDriver [97, 99, 107, 13, 10] with
    socket_send := fun k n => if k < 2 ∧ 2 ≤ n then 2 else (n : Int) }

/-! ## Specification-side wording of the request -/

/-- Decimal digits of `n` as the claim words them: most significant first,
no leading zero, `0` written as the single digit `0`; as ASCII bytes. -/
def specDecimal (n : Nat) : List Nat :=
  if n = 0 then [48] else (Nat.digits 10 n).reverse.map (fun d => d + 48)

/-- A reply `recv` can deliver without making lines 131-133 leave the buffer:
a negative error code, or between 2 and 31 bytes. -/
def RecvResult.inRange : RecvResult → Bool
  | .error code => decide (code < 0)
  | .data bytes => decide (2 ≤ bytes.length ∧ bytes.length ≤ 31)

/-- Bytes the transport reported as taken: the sum of the non-negative results
of the recorded `socket.send` calls. -/
def sentTotal : List Call → Int
  | [] => 0
  | .socketSend _ _ r :: rest => (if 0 ≤ r then r else 0) + sentTotal rest
  | _ :: rest => sentTotal rest

/-- A `send` that takes nothing on the first call and everything asked for on
every later call. -/
def stallOnceSend : Nat → Nat → Int := fun k n => if k = 0 then 0 else (n : Int)

/-- What the statement on the end of the loop says of a result of `sendLoop`
started with `size` bytes to send and the call record `calls`, within `N`
further `send` calls. -/
def LoopEnded (calls : List Call) (size N : Nat) (r : LoopExit × Int × List Call) : Prop :=
  ((r.1 = LoopExit.completed ∧ sentTotal r.2.2 = sentTotal calls + size) ∨
    (r.1 = LoopExit.sendError ∧ r.2.1 < 0 ∧ sentTotal r.2.2 < sentTotal calls + size)) ∧
  sendCalls r.2.2 ≤ sendCalls calls + N

/-! ## Lemmas on the helpers -/

theorem strlen_append_nul (pre rest : List Nat) (h : ∀ x ∈ pre, x ≠ 0) :
    strlen (pre ++ 0 :: rest) = some pre.length := by
  induction pre with
  | nil => simp [strlen]
  | cons a t ih =>
    have ha : a ≠ 0 := h a (by simp)
    have ht : ∀ x ∈ t, x ≠ 0 := fun x hx => h x (by simp [hx])
    simp [strlen, ha, ih ht]

theorem cstr_ne_zero (bytes : List Nat) : ∀ x ∈ cstr bytes, x ≠ 0 := by
  intro x hx
  have := List.mem_takeWhile_imp hx
  simpa using this

theorem specDecimal_step (n : Nat) (h : 10 ≤ n) :
    specDecimal n = specDecimal (n / 10) ++ [n % 10 + 48] := by
  have h0 : n ≠ 0 := by omega
  have h1 : n / 10 ≠ 0 := by omega
  have hd : Nat.digits 10 n = (n % 10) :: Nat.digits 10 (n / 10) :=
    Nat.digits_def' (by norm_num) (by omega)
  simp [specDecimal, h0, h1, hd]

theorem specDecimal_small (n : Nat) (h : n < 10) : specDecimal n = [n + 48] := by
  by_cases h0 : n = 0
  · simp [specDecimal, h0]
  · simp [specDecimal, h0, Nat.digits_of_lt 10 n h0 h]

theorem printf_luAux_eq (fuel : Nat) : ∀ (n : Nat) (acc : List Nat),
    n < 10 ^ (fuel + 1) → printf_luAux (fuel + 1) n acc = specDecimal n ++ acc := by
  induction fuel with
  | zero =>
    intro n acc hn
    have hn' : n < 10 := by simpa using hn
    simp [printf_luAux, hn', specDecimal_small n hn']
  | succ k ih =>
    intro n acc hn
    by_cases hlt : n < 10
    · simp [printf_luAux, hlt, specDecimal_small n hlt]
    · have hdiv : n / 10 < 10 ^ (k + 1) := by
        rw [Nat.div_lt_iff_lt_mul (by norm_num)]
        calc n < 10 ^ (k + 1 + 1) := hn
          _ = 10 ^ (k + 1) * 10 := by ring
      rw [printf_luAux]
      simp only [hlt, if_false]
      rw [ih (n / 10) _ hdiv, specDecimal_step n (by omega)]
      simp

theorem printf_lu_eq (n : Nat) (h : n < 2 ^ 32) : printf_lu n = specDecimal n := by
  have := printf_luAux_eq 9 n [] (by norm_num at h ⊢; omega)
  simpa [printf_lu] using this

theorem printf_luAux_ne_zero (fuel : Nat) : ∀ (n : Nat) (acc : List Nat),
    (∀ x ∈ acc, x ≠ 0) → ∀ x ∈ printf_luAux fuel n acc, x ≠ 0 := by
  induction fuel with
  | zero => intro n acc hacc; simpa [printf_luAux] using hacc
  | succ k ih =>
    intro n acc hacc
    rw [printf_luAux]
    split
    · intro x hx
      rcases List.mem_cons.1 hx with rfl | hx
      · omega
      · exact hacc x hx
    · apply ih
      intro x hx
      rcases List.mem_cons.1 hx with rfl | hx
      · omega
      · exact hacc x hx

theorem printf_luAux_length (fuel : Nat) : ∀ (n : Nat) (acc : List Nat),
    (printf_luAux fuel n acc).length ≤ fuel + acc.length := by
  induction fuel with
  | zero => intro n acc; simp [printf_luAux]
  | succ k ih =>
    intro n acc
    rw [printf_luAux]
    split
    · simp; omega
    · have := ih (n / 10) ((n % 10 + 48) :: acc)
      simp at this
      omega

theorem printf_lu_ne_zero (n : Nat) : ∀ x ∈ printf_lu n, x ≠ 0 :=
  printf_luAux_ne_zero 10 n [] (by simp)

theorem printf_lu_length (n : Nat) : (printf_lu n).length ≤ 10 := by
  simpa [printf_lu] using printf_luAux_length 10 n []


theorem step1_eq (tag : List Nat) (w : World)
    (hfit : (cstr tag).length + 13 ≤ w.sbuffer.length) :
    step1 tag w =
      ({ w with
          counter := (w.counter + 1) % 2 ^ 32
          sbuffer := (cstr tag ++ [32] ++ printf_lu ((w.counter + 1) % 2 ^ 32) ++ [13]) ++
            0 :: w.sbuffer.drop ((cstr tag).length + 1 +
              (printf_lu ((w.counter + 1) % 2 ^ 32)).length + 2) },
        some ((cstr tag).length + 1 + (printf_lu ((w.counter + 1) % 2 ^ 32)).length + 1)) := by
  have hl := printf_lu_length ((w.counter + 1) % 2 ^ 32)
  have hnz : ∀ x ∈ cstr tag ++ [32] ++ printf_lu ((w.counter + 1) % 2 ^ 32) ++ [13], x ≠ 0 := by
    intro x hx
    simp only [List.mem_append, List.mem_singleton] at hx
    rcases hx with ((hx | hx) | hx) | hx
    · exact cstr_ne_zero tag x hx
    · omega
    · exact printf_lu_ne_zero _ x hx
    · omega
  have hs := strlen_append_nul _ (w.sbuffer.drop ((cstr tag).length + 1 +
              (printf_lu ((w.counter + 1) % 2 ^ 32)).length + 2)) hnz
  have hout : (cstr tag ++ [32] ++ printf_lu ((w.counter + 1) % 2 ^ 32) ++ [13, 0]).length
      = (cstr tag).length + 1 + (printf_lu ((w.counter + 1) % 2 ^ 32)).length + 2 := by
    simp only [List.length_append, List.length_cons, List.length_nil]
  have hle : (cstr tag).length + 1 + (printf_lu ((w.counter + 1) % 2 ^ 32)).length + 2
      ≤ w.sbuffer.length := by omega
  have hsplit : cstr tag ++ [32] ++ printf_lu ((w.counter + 1) % 2 ^ 32) ++ [13, 0]
      ++ w.sbuffer.drop ((cstr tag).length + 1 +
              (printf_lu ((w.counter + 1) % 2 ^ 32)).length + 2)
      = (cstr tag ++ [32] ++ printf_lu ((w.counter + 1) % 2 ^ 32) ++ [13]) ++
            0 :: w.sbuffer.drop ((cstr tag).length + 1 +
              (printf_lu ((w.counter + 1) % 2 ^ 32)).length + 2) := by
    simp
  simp only [step1, sprintf_request, hout, hle, if_true, hsplit, hs]
  simp only [List.length_append, List.length_cons, List.length_nil]

theorem step1_frame (tag : List Nat) (w : World) :
    (step1 tag w).1.counter = (w.counter + 1) % 2 ^ 32 ∧
    (step1 tag w).1.s_connectionState = w.s_connectionState ∧
    (step1 tag w).1.wifi = w.wifi ∧
    (step1 tag w).1.led1 = w.led1 ∧
    (step1 tag w).1.rbuffer = w.rbuffer ∧
    (step1 tag w).1.calls = w.calls := by
  simp only [step1]
  split <;> simp

theorem step2_frame (d : Driver) (w : World) :
    (step2 d w).world.counter = w.counter ∧
    (step2 d w).world.s_connectionState = w.s_connectionState ∧
    (step2 d w).world.wifi = w.wifi := by
  simp only [step2]
  split
  · simp
  · split
    · simp
    · split
      · simp [closeAndToggle, emit, emits]
      · split <;> simp [closeAndToggle, emit, emits]


theorem sendCalls_append (a b : List Call) :
    sendCalls (a ++ b) = sendCalls a + sendCalls b := by
  induction a with
  | nil => simp [sendCalls]
  | cons c t ih =>
    cases c <;> simp [sendCalls, ih]
    omega

theorem sendLoop_bounded (send : Nat → Nat → Int)
    (hgood : ∀ k n : Nat, 1 ≤ n → send k n < 0 ∨ (1 ≤ send k n ∧ send k n ≤ (n : Int))) :
    ∀ (fuel k : Nat) (ret : Int) (size : Nat) (calls : List Call), size ≤ fuel →
      ((sendLoop send fuel k ret size calls).1 = .completed ∨
        ((sendLoop send fuel k ret size calls).1 = .sendError ∧
          (sendLoop send fuel k ret size calls).2.1 < 0)) ∧
      sendCalls (sendLoop send fuel k ret size calls).2.2 ≤ sendCalls calls + size := by
  intro fuel
  induction fuel with
  | zero =>
    intro k ret size calls h
    have : size = 0 := by omega
    simp [sendLoop, this]
  | succ f ih =>
    intro k ret size calls h
    by_cases hz : size = 0
    · simp [sendLoop, hz]
    · rw [sendLoop]
      simp only [hz, if_false]
      rcases hgood k size (by omega) with hneg | ⟨h1, h2⟩
      · simp only [hneg, if_true]
        simp [sendCalls_append, sendCalls]
        omega
      · have hnn : ¬ send k size < 0 := by omega
        simp only [hnn, if_false]
        have hsz : (((size : Int) - send k size) % 2 ^ 32).toNat ≤ f := by
          have : (2 : Int) ^ 32 = 4294967296 := by norm_num
          rw [this]
          omega
        have hsz2 : (((size : Int) - send k size) % 2 ^ 32).toNat + 1 ≤ size := by
          have : (2 : Int) ^ 32 = 4294967296 := by norm_num
          rw [this]
          omega
        have := ih (k + 1) (send k size) _ (calls ++ [Call.socketSend ret size (send k size)]) hsz
        refine ⟨this.1, le_trans this.2 ?_⟩
        simp [sendCalls_append, sendCalls]
        omega

theorem sendLoop_zero_stuck (fuel : Nat) : ∀ (k : Nat) (ret : Int) (calls : List Call),
    (sendLoop (fun _ _ => 0) fuel k ret 1 calls).1 = .outOfFuel ∧
    sendCalls (sendLoop (fun _ _ => 0) fuel k ret 1 calls).2.2 = sendCalls calls + fuel := by
  induction fuel with
  | zero => intro k ret calls; simp [sendLoop]
  | succ f ih =>
    intro k ret calls
    rw [sendLoop]
    have h1 : (((1 : Nat) : Int) - 0) % 2 ^ 32 = 1 := by norm_num
    simp only [one_ne_zero, if_false, lt_irrefl, h1, Int.toNat_one]
    have := ih (k + 1) 0 (calls ++ [Call.socketSend ret 1 0])
    refine ⟨this.1, this.2.trans ?_⟩
    simp [sendCalls_append, sendCalls]
    omega


theorem connectFailure_frame (d : Driver) (w : World) :
    (connectFailure d w).world.counter = w.counter ∧
    (connectFailure d w).world.led1 = w.led1 ∧
    ((connectFailure d w).status ≠ Status.fault →
      (connectFailure d w).status = Status.returned ∧
      (connectFailure d w).world.s_connectionState
        = ConnectionState.NETWORK_STATE_DISCONNECTED) := by
  simp only [connectFailure]
  split <;> simp [emit, emits]

theorem sendAndReceive_frame (d : Driver) (fuel size : Nat) (w : World) :
    (sendAndReceive d fuel size w).world.counter = w.counter ∧
    (sendAndReceive d fuel size w).world.s_connectionState = w.s_connectionState ∧
    (sendAndReceive d fuel size w).world.wifi = w.wifi := by
  simp only [sendAndReceive]
  split
  · simp
  · simp
  · exact step2_frame d _

theorem runner_frame (d : Driver) (fuel : Nat) (tag : List Nat) (w : World)
    (hc : w.s_connectionState = ConnectionState.NETWORK_STATE_CONNECTED) :
    (event_proc_send_and_receive_data d fuel tag w).world.counter = (w.counter + 1) % 2 ^ 32 ∧
    ((event_proc_send_and_receive_data d fuel tag w).status ≠ Status.fault →
      ((event_proc_send_and_receive_data d fuel tag w).world.s_connectionState
        = ConnectionState.NETWORK_STATE_DISCONNECTED ↔ d.socket_connect ≠ 0)) := by
  have hfr := step1_frame tag w
  rcases hs : step1 tag w with ⟨w2, osize⟩
  rw [hs] at hfr
  simp only at hfr
  have hw2 : w2.s_connectionState = ConnectionState.NETWORK_STATE_CONNECTED := by
    rw [hfr.2.1, hc]
  cases osize with
  | none => simp [event_proc_send_and_receive_data, hc, hs, hfr.1]
  | some size =>
    by_cases hconn : d.socket_connect = 0
    · have h := sendAndReceive_frame d fuel size (emits w2 [.swoPrintf 83 [.num size],
        .socketSetTimeout 3000, .socketOpen, .socketConnect d.socket_connect])
      simp only [event_proc_send_and_receive_data, hc, hs, hconn, ne_eq, not_true_eq_false,
        if_false] at h ⊢
      rw [h.1, h.2.1]
      simp [emits, hw2, hfr.1]
    · have h := connectFailure_frame d (emits w2 [.swoPrintf 83 [.num size],
        .socketSetTimeout 3000, .socketOpen, .socketConnect d.socket_connect])
      simp only [event_proc_send_and_receive_data, hc, hs, hconn, ne_eq, not_true_eq_false,
        not_false_eq_true, if_true, if_false] at h ⊢
      refine ⟨by rw [h.1]; simp [emits, hfr.1], fun hnf => ?_⟩
      simp [(h.2.2 hnf).2]

theorem strlen_lt (buf : List Nat) : ∀ n, strlen buf = some n → n < buf.length := by
  induction buf with
  | nil => intro n h; simp [strlen] at h
  | cons b t ih =>
    intro n h
    by_cases hb : b = 0
    · simp [strlen, hb] at h
      simp [← h]
    · simp only [strlen, hb, if_false, Option.map_eq_some'] at h
      obtain ⟨m, hm, rfl⟩ := h
      have := ih m hm
      simp
      omega

theorem writeAt_some (buf : List Nat) (i : Int) (v : Nat) (h0 : 0 ≤ i)
    (h1 : i.toNat < buf.length) :
    ∃ b, writeAt buf i v = some b ∧ b.length = buf.length := by
  refine ⟨buf.set i.toNat v, ?_, by simp⟩
  simp [writeAt, h0, h1]

theorem readAt_some (buf : List Nat) (i : Int) (h0 : 0 ≤ i) (h1 : i.toNat < buf.length) :
    ∃ c, readAt buf i = some c := by
  refine ⟨buf[i.toNat], ?_⟩
  simp [readAt, h0, h1]

theorem clearCrLf_some (buf : List Nat) (n : Int) (hlen : buf.length = 32)
    (h2 : 2 ≤ n) (h31 : n ≤ 31) : ∃ rb, clearCrLf buf n = some rb := by
  obtain ⟨b1, hb1, hl1⟩ := writeAt_some buf n 0 (by omega) (by omega)
  obtain ⟨c1, hc1⟩ := readAt_some b1 (n - 1) (by omega) (by omega)
  have hb2 : ∃ b2, (if c1 = 10 ∨ c1 = 13 then writeAt b1 (n - 1) 0 else some b1) = some b2 ∧
      b2.length = b1.length := by
    split
    · exact writeAt_some b1 (n - 1) 0 (by omega) (by omega)
    · exact ⟨b1, rfl, rfl⟩
  obtain ⟨b2, hb2, hl2⟩ := hb2
  obtain ⟨c2, hc2⟩ := readAt_some b2 (n - 2) (by omega) (by omega)
  simp only [clearCrLf, hb1, Option.some_bind, hc1, hb2, hc2]
  split
  · obtain ⟨b3, hb3, _⟩ := writeAt_some b2 (n - 2) 0 (by omega) (by omega)
    exact ⟨b3, hb3⟩
  · exact ⟨b2, rfl⟩

theorem step1_strlen (tag : List Nat) (w : World) (size : Nat)
    (h : (step1 tag w).2 = some size) : strlen (step1 tag w).1.sbuffer = some size := by
  simp only [step1] at h ⊢
  split at h
  · simp at h
  · rename_i sb heq
    simp only [heq]
    exact h

theorem step2_no_fault (d : Driver) (w : World) (len : Nat)
    (hs : strlen w.sbuffer = some len) (h1 : 1 ≤ len)
    (hrb : w.rbuffer.length = SOCKET_RECEIVE_BUFFER_SIZE)
    (hrecv : d.socket_recv.inRange = true) :
    (step2 d w).status = Status.returned := by
  have hlt := strlen_lt _ _ hs
  obtain ⟨sb, hsb, _⟩ := writeAt_some w.sbuffer ((len : Int) - 1) 0 (by omega) (by omega)
  simp only [step2, hs, hsb]
  simp only [SOCKET_RECEIVE_BUFFER_SIZE] at hrb ⊢
  cases hr : d.socket_recv with
  | error code =>
    rw [hr] at hrecv
    have : code < 0 := by simpa [RecvResult.inRange] using hrecv
    simp [RecvResult.ret, this, closeAndToggle]
  | data bytes =>
    rw [hr] at hrecv
    obtain ⟨hb2, hb31⟩ : 2 ≤ bytes.length ∧ bytes.length ≤ 31 := by
      simpa [RecvResult.inRange] using hrecv
    have htake : (bytes.take 32).length = bytes.length := by simp; omega
    have hst : (RecvResult.store 32 (emit { w with sbuffer := sb }
        (Call.swoPrintf 119 [PArg.str (cstr sb)])).rbuffer (RecvResult.data bytes)).length = 32 := by
      simp only [RecvResult.store, emit, List.length_append, List.length_drop, htake, hrb]
      omega
    obtain ⟨rb, hrb2⟩ := clearCrLf_some _ (RecvResult.ret 32 (RecvResult.data bytes)) hst
      (by simp only [RecvResult.ret, htake]; omega) (by simp only [RecvResult.ret, htake]; omega)
    have hnn : ¬ RecvResult.ret 32 (RecvResult.data bytes) < 0 := by
      simp only [RecvResult.ret]; omega
    simp only [hnn, if_false]
    simp only [emit] at hrb2 ⊢
    simp only [hrb2, closeAndToggle]

theorem runner_no_fault (d : Driver) (fuel : Nat) (tag : List Nat) (w : World)
    (hwifi : w.wifi ≠ none)
    (hfit : (cstr tag).length + 13 ≤ w.sbuffer.length)
    (hrb : w.rbuffer.length = SOCKET_RECEIVE_BUFFER_SIZE)
    (hrecv : d.socket_recv.inRange = true) :
    (event_proc_send_and_receive_data d fuel tag w).status ≠ Status.fault := by
  by_cases hc : w.s_connectionState = ConnectionState.NETWORK_STATE_CONNECTED
  swap
  · simp [event_proc_send_and_receive_data, hc]
  have h1 := step1_eq tag w hfit
  simp only [event_proc_send_and_receive_data, hc, h1, ne_eq, not_true_eq_false, if_false]
  by_cases hconn : d.socket_connect = 0
  · simp only [hconn, not_true_eq_false, if_false, sendAndReceive]
    split
    · simp
    · simp
    · rw [step2_no_fault d _ ((cstr tag).length + 1 +
        (printf_lu ((w.counter + 1) % 2 ^ 32)).length + 1)]
      · simp
      · have hs := step1_strlen tag w _ (by rw [h1])
        rw [h1] at hs
        simpa [emits] using hs
      · omega
      · simpa [emits] using hrb
      · exact hrecv
  · simp only [hconn, not_false_eq_true, if_true, connectFailure, emits]
    cases hw : w.wifi with
    | none => exact absurd hw hwifi
    | some i => simp

theorem sentTotal_append (a b : List Call) :
    sentTotal (a ++ b) = sentTotal a + sentTotal b := by
  induction a with
  | nil => simp [sentTotal]
  | cons c t ih =>
    cases c <;> simp [sentTotal, ih]
    omega

theorem sendLoop_step_neg (send : Nat → Nat → Int) (fuel k : Nat) (ret : Int) (size : Nat)
    (calls : List Call) (hs : size ≠ 0) (hr : send k size < 0) :
    sendLoop send (fuel + 1) k ret size calls =
      (LoopExit.sendError, send k size,
        calls ++ [Call.socketSend ret size (send k size)] ++
          [Call.swoPrintf 107 [PArg.num (send k size)], Call.socketClose]) := by
  rw [sendLoop]
  simp [hs, hr]

theorem sendLoop_step_nonneg (send : Nat → Nat → Int) (fuel k : Nat) (ret : Int) (size : Nat)
    (calls : List Call) (hs : size ≠ 0) (hr : ¬ send k size < 0) :
    sendLoop send (fuel + 1) k ret size calls =
      sendLoop send fuel (k + 1) (send k size) (((size : Int) - send k size) % 2 ^ 32).toNat
        (calls ++ [Call.socketSend ret size (send k size)]) := by
  rw [sendLoop]
  simp [hs, hr]

theorem sendLoop_advance (send : Nat → Nat → Int) (k : Nat) (ret : Int) (size : Nat)
    (calls : List Call) (hs : size ≠ 0) (h0 : 0 ≤ send k size)
    (s' : Nat) (hs' : (s' : Int) = (size : Int) - send k size) (hlt : size < 2 ^ 32) (N : Nat)
    (hN : ∀ fuel, N ≤ fuel →
      LoopEnded (calls ++ [Call.socketSend ret size (send k size)]) s' N
        (sendLoop send fuel (k + 1) (send k size) s'
          (calls ++ [Call.socketSend ret size (send k size)]))) :
    ∀ fuel, N + 1 ≤ fuel → LoopEnded calls size (N + 1) (sendLoop send fuel k ret size calls) := by
  intro fuel hf
  obtain ⟨f, rfl⟩ : ∃ f, fuel = f + 1 := ⟨fuel - 1, by omega⟩
  have h232 : (2 : Int) ^ 32 = 4294967296 := by norm_num
  have h232n : (2 : Nat) ^ 32 = 4294967296 := by norm_num
  have hsz : (((size : Int) - send k size) % 2 ^ 32).toNat = s' := by
    rw [h232]
    rw [h232n] at hlt
    omega
  rw [sendLoop_step_nonneg send f k ret size calls hs (by omega), hsz]
  have h := hN f (by omega)
  simp only [LoopEnded, sentTotal_append, sentTotal, sendCalls_append, sendCalls,
    h0, if_true] at h ⊢
  refine ⟨?_, by omega⟩
  rcases h.1 with ⟨e, t⟩ | ⟨e, r, t⟩
  · exact Or.inl ⟨e, by omega⟩
  · exact Or.inr ⟨e, r, by omega⟩

theorem sendLoop_ends (send : Nat → Nat → Int)
    (hrange : ∀ k n : Nat, 1 ≤ n → send k n < 0 ∨ (0 ≤ send k n ∧ send k n ≤ (n : Int)))
    (hprog : ∀ K : Nat, ∃ k, K ≤ k ∧ ∀ n : Nat, 1 ≤ n → send k n ≠ 0) :
    ∀ size : Nat, size < 2 ^ 32 → ∀ (k : Nat) (ret : Int) (calls : List Call),
      ∃ N, ∀ fuel, N ≤ fuel → LoopEnded calls size N (sendLoop send fuel k ret size calls) := by
  intro size
  induction size using Nat.strong_induction_on with
  | _ size ih =>
    intro hsize
    by_cases hz : size = 0
    · intro k ret calls
      refine ⟨0, fun fuel _ => ?_⟩
      cases fuel <;> simp [sendLoop, hz, LoopEnded]
    · have inner : ∀ dist k : Nat,
          (∃ k', k ≤ k' ∧ k' ≤ k + dist ∧ ∀ n : Nat, 1 ≤ n → send k' n ≠ 0) →
          ∀ (ret : Int) (calls : List Call),
            ∃ N, ∀ fuel, N ≤ fuel →
              LoopEnded calls size N (sendLoop send fuel k ret size calls) := by
        intro dist
        induction dist with
        | zero =>
          intro k hk ret calls
          obtain ⟨k', h1, h2, h3⟩ := hk
          have hkk : k' = k := by omega
          subst hkk
          have hne := h3 size (by omega)
          rcases hrange k' size (by omega) with hneg | ⟨h0, hle⟩
          · refine ⟨1, fun fuel hf => ?_⟩
            obtain ⟨f, rfl⟩ : ∃ f, fuel = f + 1 := ⟨fuel - 1, by omega⟩
            rw [sendLoop_step_neg send f k' ret size calls hz hneg]
            have : ¬ (0 ≤ send k' size) := by omega
            simp [LoopEnded, hneg, sentTotal_append, sentTotal, sendCalls_append, sendCalls, this]
            omega
          · obtain ⟨s', hs'⟩ : ∃ s' : Nat, (s' : Int) = (size : Int) - send k' size :=
              ⟨((size : Int) - send k' size).toNat, by omega⟩
            obtain ⟨N, hN⟩ := ih s' (by omega) (by omega) (k' + 1) (send k' size)
              (calls ++ [Call.socketSend ret size (send k' size)])
            exact ⟨N + 1, sendLoop_advance send k' ret size calls hz h0 s' hs' hsize N hN⟩
        | succ dist ihd =>
          intro k hk ret calls
          obtain ⟨k', h1, h2, h3⟩ := hk
          rcases hrange k size (by omega) with hneg | ⟨h0, hle⟩
          · refine ⟨1, fun fuel hf => ?_⟩
            obtain ⟨f, rfl⟩ : ∃ f, fuel = f + 1 := ⟨fuel - 1, by omega⟩
            rw [sendLoop_step_neg send f k ret size calls hz hneg]
            have : ¬ (0 ≤ send k size) := by omega
            simp [LoopEnded, hneg, sentTotal_append, sentTotal, sendCalls_append, sendCalls, this]
            omega
          · by_cases hr0 : send k size = 0
            · have hkk : k' ≠ k := by
                intro h
                subst h
                exact h3 size (by omega) hr0
              obtain ⟨N, hN⟩ := ihd (k + 1) ⟨k', by omega, by omega, h3⟩ (send k size)
                (calls ++ [Call.socketSend ret size (send k size)])
              exact ⟨N + 1,
                sendLoop_advance send k ret size calls hz h0 size (by omega) hsize N hN⟩
            · obtain ⟨s', hs'⟩ : ∃ s' : Nat, (s' : Int) = (size : Int) - send k size :=
                ⟨((size : Int) - send k size).toNat, by omega⟩
              obtain ⟨N, hN⟩ := ih s' (by omega) (by omega) (k + 1) (send k size)
                (calls ++ [Call.socketSend ret size (send k size)])
              exact ⟨N + 1, sendLoop_advance send k ret size calls hz h0 s' hs' hsize N hN⟩
      intro k ret calls
      obtain ⟨k', h1, h2⟩ := hprog k
      exact inner (k' - k) k ⟨k', h1, by omega, h2⟩ ret calls


theorem manager_keeps_wifi (d : Driver) (w : World)
    (h : w.s_connectionState = ConnectionState.NETWORK_STATE_CONNECTED → w.wifi ≠ none) :
    (event_proc_manage_network_connection d w).world.s_connectionState
        = ConnectionState.NETWORK_STATE_CONNECTED →
      (event_proc_manage_network_connection d w).world.wifi ≠ none := by
  by_cases hc : w.s_connectionState = ConnectionState.NETWORK_STATE_CONNECTED
  · simpa [event_proc_manage_network_connection, hc] using h hc
  · cases hi : d.get_default_instance with
    | none => simp [event_proc_manage_network_connection, hc, hi, emit, emits]
    | some i =>
      by_cases hr : d.wifi_connect = 0
      · simp [event_proc_manage_network_connection, hc, hi, hr, emit, emits]
      · simp [event_proc_manage_network_connection, hc, hi, hr, emit, emits]

theorem runner_keeps_wifi (d : Driver) (fuel : Nat) (tag : List Nat) (w : World) :
    (event_proc_send_and_receive_data d fuel tag w).world.wifi = w.wifi := by
  by_cases hc : w.s_connectionState = ConnectionState.NETWORK_STATE_CONNECTED
  swap
  · simp [event_proc_send_and_receive_data, hc]
  have hfr := step1_frame tag w
  rcases hs : step1 tag w with ⟨w2, osize⟩
  rw [hs] at hfr
  simp only at hfr
  cases osize with
  | none => simp [event_proc_send_and_receive_data, hc, hs, hfr.2.2.1]
  | some size =>
    by_cases hconn : d.socket_connect = 0
    · have h := sendAndReceive_frame d fuel size (emits w2 [.swoPrintf 83 [.num size],
        .socketSetTimeout 3000, .socketOpen, .socketConnect d.socket_connect])
      simp only [event_proc_send_and_receive_data, hc, hs, hconn, ne_eq, not_true_eq_false,
        if_false] at h ⊢
      rw [h.2.2]
      simp [emits, hfr.2.2.1]
    · simp only [event_proc_send_and_receive_data, hc, hs, hconn, ne_eq, not_true_eq_false,
        not_false_eq_true, if_true, if_false, connectFailure]
      split <;> simp [emits, emit, hfr.2.2.1]

/-! ## The claims -/

/-- C1 (fails on the code): with the request `"test 6\r"` (7 bytes) and send
results 2, 2, 3 (each positive, at most the bytes still unsent, summing to 7)
the invocation returns, but the third `socket.send` is handed `sbuffer + 2`,
the previous result, instead of `sbuffer + 4`: the transport accepts
`"testst "` and never the bytes `"6\r"`. -/
theorem C1_third_send_restarts_at_last_count :
    (step1 tagTest (connectedWorld 5)).1.sbuffer.take 8
      = [116, 101, 115, 116, 32, 54, 13, 0] ∧
    (step1 tagTest (connectedWorld 5)).2 = some 7 ∧
    (event_proc_send_and_receive_data chunkDriver 7 tagTest (connectedWorld 5)).status
      = Status.returned ∧
    (event_proc_send_and_receive_data chunkDriver 7 tagTest (connectedWorld 5)).world.calls.filter
        (fun c => match c with | Call.socketSend _ _ _ => true | _ => false)
      = [Call.socketSend 0 7 2, Call.socketSend 2 5 2, Call.socketSend 2 3 3] ∧
    accepted (step1 tagTest (connectedWorld 5)).1.sbuffer
        (event_proc_send_and_receive_data chunkDriver 7 tagTest (connectedWorld 5)).world.calls
      = [116, 101, 115, 116, 115, 116, 32] ∧
    accepted (step1 tagTest (connectedWorld 5)).1.sbuffer
        (event_proc_send_and_receive_data chunkDriver 7 tagTest (connectedWorld 5)).world.calls
      ≠ [116, 101, 115, 116, 32, 54, 13] := by
  decide

/-- C2 (fails on the code): the 3-byte reply `"a\nb"` has no trailing
line ending, yet it is logged as `"a"`: the check of `rbuffer[n-2]` does not
depend on the check of `rbuffer[n-1]`, so the LF in the middle is cleared and
the byte `b` after it is cut off.  The reply `"ack\r\n"` is logged as
`"ack"`. -/
theorem C2_inner_line_ending_cuts_reply :
    (event_proc_send_and_receive_data (okDriver [97, 10, 98]) 7 tagTest
        (connectedWorld 5)).status = Status.returned ∧
    cstr (event_proc_send_and_receive_data (okDriver [97, 10, 98]) 7 tagTest
        (connectedWorld 5)).world.rbuffer = [97] ∧
    Call.swoPrintf 135 [PArg.str [97]] ∈
      (event_proc_send_and_receive_data (okDriver [97, 10, 98]) 7 tagTest
        (connectedWorld 5)).world.calls ∧
    cstr (event_proc_send_and_receive_data (okDriver [97, 99, 107, 13, 10]) 7 tagTest
        (connectedWorld 5)).world.rbuffer = [97, 99, 107] := by
  decide

/-- C3 (fails on the code): in state Connected, with `socket.connect`
returning 0 and the request sent in one `send`, a `recv` that fails with
-3001 is logged at line 126 and the run then falls through to lines 138-141:
`led1` goes from `false` to `true`, it is toggled on a receive failure. -/
theorem C3_led_toggles_on_receive_failure :
    (event_proc_send_and_receive_data
        { okDriver [] with socket_recv := RecvResult.error (-3001) } 7 tagTest
        (connectedWorld 5)).status = Status.returned ∧
    (connectedWorld 5).led1 = false ∧
    (event_proc_send_and_receive_data
        { okDriver [] with socket_recv := RecvResult.error (-3001) } 7 tagTest
        (connectedWorld 5)).world.led1 = true ∧
    Call.swoPrintf 126 [PArg.num (-3001)] ∈ (event_proc_send_and_receive_data
        { okDriver [] with socket_recv := RecvResult.error (-3001) } 7 tagTest
        (connectedWorld 5)).world.calls ∧
    Call.ledWrite true ∈ (event_proc_send_and_receive_data
        { okDriver [] with socket_recv := RecvResult.error (-3001) } 7 tagTest
        (connectedWorld 5)).world.calls := by
  decide

/-- C5: the transaction runner started in state Connected leaves the counter
at `(c + 1) mod 2^32` whatever the driver calls return and wherever the run
stops; started in state Disconnected it leaves the counter at `c`; the
connection manager never changes the counter. -/
theorem C5_counter_steps_by_one (d : Driver) (fuel : Nat) (tag : List Nat) (w : World) :
    (w.s_connectionState = ConnectionState.NETWORK_STATE_CONNECTED →
      (event_proc_send_and_receive_data d fuel tag w).world.counter
        = (w.counter + 1) % 2 ^ 32) ∧
    (w.s_connectionState = ConnectionState.NETWORK_STATE_DISCONNECTED →
      (event_proc_send_and_receive_data d fuel tag w).world.counter = w.counter) ∧
    (event_proc_manage_network_connection d w).world.counter = w.counter := by
  refine ⟨fun hc => (runner_frame d fuel tag w hc).1, fun hd => ?_, ?_⟩
  · simp [event_proc_send_and_receive_data, hd]
  · simp only [event_proc_manage_network_connection]
    split
    · rfl
    · split
      · rfl
      · split <;> rfl

/-- Witness of C5: from counter `2^32 - 1` in state Connected the counter
wraps to 0, also when `socket.connect` fails. -/
theorem C5_counter_steps_by_one_witness :
    (connectedWorld (2 ^ 32 - 1)).s_connectionState
        = ConnectionState.NETWORK_STATE_CONNECTED ∧
    (event_proc_send_and_receive_data { okDriver [] with socket_connect := -3004 } 7 tagBtn
        (connectedWorld (2 ^ 32 - 1))).world.counter
      = ((connectedWorld (2 ^ 32 - 1)).counter + 1) % 2 ^ 32 ∧
    ((connectedWorld (2 ^ 32 - 1)).counter + 1) % 2 ^ 32 = 0 :=
  ⟨by decide,
    (C5_counter_steps_by_one { okDriver [] with socket_connect := -3004 } 7 tagBtn
      (connectedWorld (2 ^ 32 - 1))).1 (by decide),
    by decide⟩

/-- C6: for the tags `"test"` and `"btn"` and every counter value, step 1
sets the counter to `(c + 1) mod 2^32` and leaves in the 32-byte send buffer
the bytes `tag`, a space, the decimal digits of the new counter, CR and a NUL
(the rest of the buffer untouched); `size` is `len tag + 2 + number of
digits`, and request and NUL lie inside the buffer. -/
theorem C6_request_format (tag : List Nat) (w : World)
    (htag : tag = tagTest ∨ tag = tagBtn)
    (hbuf : w.sbuffer.length = SOCKET_SEND_BUFFER_SIZE) :
    (step1 tag w).1.counter = (w.counter + 1) % 2 ^ 32 ∧
    (step1 tag w).1.sbuffer
      = (tag ++ [32] ++ specDecimal ((w.counter + 1) % 2 ^ 32) ++ [13]) ++
          0 :: w.sbuffer.drop (tag.length + 2 + (specDecimal ((w.counter + 1) % 2 ^ 32)).length + 1) ∧
    (step1 tag w).2 = some (tag.length + 2 + (specDecimal ((w.counter + 1) % 2 ^ 32)).length) ∧
    tag.length + 2 + (specDecimal ((w.counter + 1) % 2 ^ 32)).length + 1
      ≤ SOCKET_SEND_BUFFER_SIZE ∧
    (step1 tag w).1.sbuffer.length = SOCKET_SEND_BUFFER_SIZE := by
  have hlt : (w.counter + 1) % 2 ^ 32 < 2 ^ 32 := Nat.mod_lt _ (by norm_num)
  have hpe := printf_lu_eq _ hlt
  have hpl := printf_lu_length ((w.counter + 1) % 2 ^ 32)
  have hc : cstr tag = tag := by
    rcases htag with rfl | rfl <;> decide
  have hlen : tag.length ≤ 4 := by
    rcases htag with rfl | rfl <;> decide
  have hfit : (cstr tag).length + 13 ≤ w.sbuffer.length := by
    rw [hc, hbuf]
    simp only [SOCKET_SEND_BUFFER_SIZE]
    omega
  have h := step1_eq tag w hfit
  rw [hc, hpe] at h
  rw [hpe] at hpl
  rw [h]
  simp only [SOCKET_SEND_BUFFER_SIZE] at hbuf ⊢
  refine ⟨trivial, ?_, ?_, by omega, ?_⟩
  · have harith : tag.length + 1 + (specDecimal ((w.counter + 1) % 2 ^ 32)).length + 2
        = tag.length + 2 + (specDecimal ((w.counter + 1) % 2 ^ 32)).length + 1 := by omega
    simp only [harith]
  · have harith : tag.length + 1 + (specDecimal ((w.counter + 1) % 2 ^ 32)).length + 1
        = tag.length + 2 + (specDecimal ((w.counter + 1) % 2 ^ 32)).length := by omega
    simp only [harith]
  · simp only [List.length_append, List.length_cons, List.length_nil, List.length_drop, hbuf]
    omega

/-- Witness of C6 (scenario B): tag `"test"`, counter 5: the request is
`"test 6\r"`, 7 bytes, and the counter becomes 6. -/
theorem C6_request_format_witness :
    (tagTest = tagTest ∨ tagTest = tagBtn) ∧
    (connectedWorld 5).sbuffer.length = SOCKET_SEND_BUFFER_SIZE ∧
    ((step1 tagTest (connectedWorld 5)).1.counter = ((connectedWorld 5).counter + 1) % 2 ^ 32 ∧
    (step1 tagTest (connectedWorld 5)).1.sbuffer
      = (tagTest ++ [32] ++ specDecimal (((connectedWorld 5).counter + 1) % 2 ^ 32) ++ [13]) ++
          0 :: (connectedWorld 5).sbuffer.drop
            (tagTest.length + 2 +
              (specDecimal (((connectedWorld 5).counter + 1) % 2 ^ 32)).length + 1) ∧
    (step1 tagTest (connectedWorld 5)).2
      = some (tagTest.length + 2 +
          (specDecimal (((connectedWorld 5).counter + 1) % 2 ^ 32)).length) ∧
    tagTest.length + 2 + (specDecimal (((connectedWorld 5).counter + 1) % 2 ^ 32)).length + 1
      ≤ SOCKET_SEND_BUFFER_SIZE ∧
    (step1 tagTest (connectedWorld 5)).1.sbuffer.length = SOCKET_SEND_BUFFER_SIZE) ∧
    (step1 tagTest (connectedWorld 5)).1.counter = 6 ∧
    cstr (step1 tagTest (connectedWorld 5)).1.sbuffer = [116, 101, 115, 116, 32, 54, 13] ∧
    (step1 tagTest (connectedWorld 5)).2 = some 7 :=
  ⟨Or.inl rfl, by decide,
    C6_request_format tagTest (connectedWorld 5) (Or.inl rfl) (by decide),
    by decide, by decide, by decide⟩

/-- C7: the connection manager started in state Disconnected returns, and
the state afterwards is Connected if and only if `get_default_instance`
returned an interface and `wifi->connect` returned 0; otherwise the state is
still Disconnected; when no interface is available the only calls made are
the two `printf`s and `get_default_instance`, so `connect` is not called. -/
theorem C7_manager_transition (d : Driver) (w : World)
    (hd : w.s_connectionState = ConnectionState.NETWORK_STATE_DISCONNECTED) :
    (event_proc_manage_network_connection d w).status = Status.returned ∧
    ((event_proc_manage_network_connection d w).world.s_connectionState
        = ConnectionState.NETWORK_STATE_CONNECTED ↔
      (d.get_default_instance ≠ none ∧ d.wifi_connect = 0)) ∧
    (¬ (d.get_default_instance ≠ none ∧ d.wifi_connect = 0) →
      (event_proc_manage_network_connection d w).world.s_connectionState
        = ConnectionState.NETWORK_STATE_DISCONNECTED) ∧
    (d.get_default_instance = none →
      (event_proc_manage_network_connection d w).world.calls
        = w.calls ++ [Call.swoPrintf 45 [], Call.wifiGetDefaultInstance, Call.swoPrintf 50 []]) := by
  cases hi : d.get_default_instance with
  | none => simp [event_proc_manage_network_connection, hd, hi, emit, emits]
  | some i =>
    by_cases hr : d.wifi_connect = 0
    · simp [event_proc_manage_network_connection, hd, hi, hr, emit, emits]
    · simp [event_proc_manage_network_connection, hd, hi, hr, emit, emits]

/-- Witness of C7 (scenario A): from the start-up state with an interface
available and `connect` returning 0 the state becomes Connected. -/
theorem C7_manager_transition_witness :
    ({ connectedWorld 0 with
        wifi := none,
        s_connectionState := ConnectionState.NETWORK_STATE_DISCONNECTED } : World).s_connectionState
      = ConnectionState.NETWORK_STATE_DISCONNECTED ∧
    (event_proc_manage_network_connection (okDriver [])
      { connectedWorld 0 with
        wifi := none,
        s_connectionState := ConnectionState.NETWORK_STATE_DISCONNECTED }).world.s_connectionState
      = ConnectionState.NETWORK_STATE_CONNECTED :=
  ⟨rfl,
    (C7_manager_transition (okDriver [])
      { connectedWorld 0 with
        wifi := none,
        s_connectionState := ConnectionState.NETWORK_STATE_DISCONNECTED } rfl).2.1.2
      ⟨by decide, by decide⟩⟩

/-- C8: the connection manager started in state Connected returns at once:
the outcome is the unchanged world (no call recorded, same state, wifi
handle, counter and buffers), so running it any number of times, with any
drivers, gives back the world it started from. -/
theorem C8_manager_noop_when_connected (ds : List Driver) (d : Driver) (w : World)
    (hc : w.s_connectionState = ConnectionState.NETWORK_STATE_CONNECTED) :
    event_proc_manage_network_connection d w = { status := Status.returned, world := w } ∧
    ds.foldl (fun v e => (event_proc_manage_network_connection e v).world) w = w := by
  refine ⟨by simp [event_proc_manage_network_connection, hc], ?_⟩
  induction ds with
  | nil => rfl
  | cons e t ih =>
    simp only [List.foldl_cons]
    have : (event_proc_manage_network_connection e w).world = w := by
      simp [event_proc_manage_network_connection, hc]
    rw [this]
    exact ih

/-- Witness of C8: three invocations in state Connected, with drivers whose
calls would fail, change nothing. -/
theorem C8_manager_noop_when_connected_witness :
    (connectedWorld 5).s_connectionState = ConnectionState.NETWORK_STATE_CONNECTED ∧
    (event_proc_manage_network_connection (okDriver []) (connectedWorld 5)
        = { status := Status.returned, world := connectedWorld 5 } ∧
      [chunkDriver, okDriver [], chunkDriver].foldl
        (fun v e => (event_proc_manage_network_connection e v).world) (connectedWorld 5)
        = connectedWorld 5) :=
  ⟨rfl, C8_manager_noop_when_connected [chunkDriver, okDriver [], chunkDriver] (okDriver [])
    (connectedWorld 5) rfl⟩

/-- C9 (counterexample): a transport whose every `send` returns 0 (a byte
count between 0 and the bytes still unsent) keeps the loop running: for a
1-byte request the loop has not ended after any number `fuel` of iterations
and has made `fuel` calls of `socket.send` by then. -/
theorem C9_zero_results_never_end :
    (∀ k n : Nat, 1 ≤ n →
      (fun (_ _ : Nat) => (0 : Int)) k n < 0 ∨
        (0 ≤ (fun (_ _ : Nat) => (0 : Int)) k n ∧
          (fun (_ _ : Nat) => (0 : Int)) k n ≤ (n : Int))) ∧
    ∀ fuel : Nat,
      (sendLoop (fun _ _ => 0) fuel 0 0 1 []).1 = LoopExit.outOfFuel ∧
      sendCalls (sendLoop (fun _ _ => 0) fuel 0 0 1 []).2.2 = fuel := by
  refine ⟨fun k n _ => Or.inr ⟨le_refl _, by simp⟩, fun fuel => ?_⟩
  have := sendLoop_zero_stuck fuel 0 0 []
  simpa [sendCalls] using this

/-- C9 (amended): let every `send` result be negative or a byte count
between 0 and the number of bytes asked for (the bytes still unsent), and let
the results not stay at 0 for ever (after every call there is a later call
whose result is not 0).  Then the loop on a request of `L` bytes ends: there
is a number `N` such that, run for `N` iterations or more, the loop has made
at most `N` calls of `socket.send` and has ended either with `size` at 0 and
the byte counts returned summing to `L`, or on a negative result with the byte
counts summing to less than `L`. -/
theorem C9_send_loop_ends (send : Nat → Nat → Int) (L : Nat) (hL : L < 2 ^ 32)
    (hrange : ∀ k n : Nat, 1 ≤ n → send k n < 0 ∨ (0 ≤ send k n ∧ send k n ≤ (n : Int)))
    (hprog : ∀ K : Nat, ∃ k, K ≤ k ∧ ∀ n : Nat, 1 ≤ n → send k n ≠ 0) :
    ∃ N, ∀ fuel, N ≤ fuel →
      (((sendLoop send fuel 0 0 L []).1 = LoopExit.completed ∧
          sentTotal (sendLoop send fuel 0 0 L []).2.2 = L) ∨
        ((sendLoop send fuel 0 0 L []).1 = LoopExit.sendError ∧
          (sendLoop send fuel 0 0 L []).2.1 < 0 ∧
          sentTotal (sendLoop send fuel 0 0 L []).2.2 < L)) ∧
      sendCalls (sendLoop send fuel 0 0 L []).2.2 ≤ N := by
  obtain ⟨N, hN⟩ := sendLoop_ends send hrange hprog L hL 0 0 []
  refine ⟨N, fun fuel hf => ?_⟩
  simpa [LoopEnded, sentTotal, sendCalls] using hN fuel hf

/-- Witness of C9 (amended): a 7-byte request of which the first `send` takes
nothing and the second takes all: the loop ends after two calls. -/
theorem C9_send_loop_ends_witness :
    (7 : Nat) < 2 ^ 32 ∧
    (∀ k n : Nat, 1 ≤ n →
      stallOnceSend k n < 0 ∨ (0 ≤ stallOnceSend k n ∧ stallOnceSend k n ≤ (n : Int))) ∧
    (∀ K : Nat, ∃ k, K ≤ k ∧ ∀ n : Nat, 1 ≤ n → stallOnceSend k n ≠ 0) ∧
    (∃ N, ∀ fuel, N ≤ fuel →
      (((sendLoop stallOnceSend fuel 0 0 7 []).1 = LoopExit.completed ∧
          sentTotal (sendLoop stallOnceSend fuel 0 0 7 []).2.2 = (7 : Nat)) ∨
        ((sendLoop stallOnceSend fuel 0 0 7 []).1 = LoopExit.sendError ∧
          (sendLoop stallOnceSend fuel 0 0 7 []).2.1 < 0 ∧
          sentTotal (sendLoop stallOnceSend fuel 0 0 7 []).2.2 < (7 : Nat))) ∧
      sendCalls (sendLoop stallOnceSend fuel 0 0 7 []).2.2 ≤ N) ∧
    sendLoop stallOnceSend 2 0 0 7 []
      = (LoopExit.completed, 7, [Call.socketSend 0 7 0, Call.socketSend 0 7 7]) :=
  have hrange : ∀ k n : Nat, 1 ≤ n →
      stallOnceSend k n < 0 ∨ (0 ≤ stallOnceSend k n ∧ stallOnceSend k n ≤ (n : Int)) := by
    intro k n _
    right
    simp only [stallOnceSend]
    split <;> omega
  have hprog : ∀ K : Nat, ∃ k, K ≤ k ∧ ∀ n : Nat, 1 ≤ n → stallOnceSend k n ≠ 0 := by
    intro K
    refine ⟨K + 1, by omega, fun n hn => ?_⟩
    simp only [stallOnceSend]
    split <;> omega
  ⟨by norm_num, hrange, hprog,
    C9_send_loop_ends stallOnceSend 7 (by norm_num) hrange hprog, by decide⟩

/-- C10 (fails on the code): a reply that fills the buffer makes `recv`
return 32, and the terminator is then written at `rbuffer[32]`, one past the
last element; an empty reply (`recv` returns 0) makes the line-ending check
read `rbuffer[-1]`.  Both runs stop on the out-of-range access. -/
theorem C10_terminator_written_past_buffer :
    (RecvResult.data (List.replicate 32 65)).ret SOCKET_RECEIVE_BUFFER_SIZE = 32 ∧
    ((RecvResult.data (List.replicate 32 65)).store SOCKET_RECEIVE_BUFFER_SIZE
      zeroBuffer).length = 32 ∧
    writeAt ((RecvResult.data (List.replicate 32 65)).store SOCKET_RECEIVE_BUFFER_SIZE zeroBuffer)
      32 0 = none ∧
    clearCrLf ((RecvResult.data (List.replicate 32 65)).store SOCKET_RECEIVE_BUFFER_SIZE zeroBuffer)
      32 = none ∧
    (event_proc_send_and_receive_data (okDriver (List.replicate 32 65)) 7 tagTest
        (connectedWorld 5)).status = Status.fault ∧
    (RecvResult.data []).ret SOCKET_RECEIVE_BUFFER_SIZE = 0 ∧
    readAt zeroBuffer (0 - 1) = none ∧
    clearCrLf zeroBuffer 0 = none ∧
    (event_proc_send_and_receive_data (okDriver []) 7 tagTest
        (connectedWorld 5)).status = Status.fault := by
  decide

end WifiSample
